import Mathlib

/-!
Verification of the reaction-picker interaction cluster of
`ably/ably-chat-react-ui-components`.

Embedded from the source under `src/`:
- the fixed emoji palette and the `EmojiPicker` component
  (`src/components/molecules/EmojiPicker.tsx`);
- the `useThrottle` mock implementation that the RoomReaction test suite
  installs (same file, test section).

The `RoomReaction` gesture controller itself (`room-reaction.tsx`,
`use-throttle.tsx`, `emoji-wheel.tsx`, `emoji-burst.tsx`) is not under
`src/` — only its test suite is — so the controller is modelled from the
spec's state machine (spec section 4.4) and cross-checked against the
tests.
-/

/-- The fixed, ordered emoji palette, copied verbatim from `emojis` in
`EmojiPicker.tsx` (lines 17-61). -/
def emojis : List String :=
  ["👍", "❤️", "😊", "😂", "😱", "😢", "🏃", "💯", "🔥", "👏",
   "☀️", "🎉", "🌈", "🙌", "💡", "🎶", "😎", "🤔", "🧠", "🍕",
   "🌟", "🚀", "🐶", "🐱", "🌍", "📚", "🎯", "🥳", "🤖", "🎨",
   "🧘", "🏆", "💥", "💖", "😇", "😜", "🌸", "💬", "📸", "🛠️",
   "⏰", "🧩", "🗺️"]

/-- Screen position, the `position: \x7b top, left \x7d` prop of `EmojiPicker`. -/
structure Position where
  top : Int
  left : Int
deriving Repr, DecidableEq

/-- Result of a click on one of the picker's interactive regions: the
backdrop's `onClick` is the `onClose` callback, a glyph button's `onClick`
is `onEmojiSelect(emoji)`. -/
inductive PickerAction where
  | close
  | select (emoji : String)
deriving Repr, DecidableEq

/-- One rendered glyph button of the open picker (`EmojiPicker.tsx`
lines 91-101): text content, `aria-label`, `title` and click handler. -/
structure EmojiButton where
  text : String
  ariaLabel : String
  title : String
  onClick : PickerAction
deriving Repr, DecidableEq

/-- The positioned panel of the open picker (`EmojiPicker.tsx` lines 81-102):
`role="dialog"`, `aria-label="Emoji picker"`, anchored at `position`, one
button per palette entry. -/
structure PickerPanel where
  role : String
  ariaLabel : String
  pos : Position
  buttons : List EmojiButton
deriving Repr, DecidableEq

/-- Everything the open picker renders: the full-viewport dismiss backdrop
(whose click handler is `onClose`) and the panel. -/
structure RenderedPicker where
  backdropOnClick : PickerAction
  panel : PickerPanel
deriving Repr, DecidableEq

/-- Rendering of the `EmojiPicker` component (`EmojiPicker.tsx` lines 72-105):
`if (!isOpen) return null`; otherwise a backdrop with `onClick=\x7bonClose\x7d`
and a dialog-role panel with one button per `emojis` entry, each button
keyed and labelled by its glyph and with `onClick=() => onEmojiSelect(emoji)`. -/
def renderEmojiPicker (isOpen : Bool) (position : Position) :
    Option RenderedPicker :=
  if !isOpen then none
  else some
    { backdropOnClick := PickerAction.close,
      panel :=
        { role := "dialog",
          ariaLabel := "Emoji picker",
          pos := position,
          buttons := emojis.map fun emoji =>
            { text := emoji,
              ariaLabel := "Emoji " ++ emoji,
              title := emoji,
              onClick := PickerAction.select emoji } } }

/-- The per-callback throttle record of the `useThrottle` mock
(`EmojiPicker.tsx` test section, lines 128-157): last accepted timestamp
and window length, as stored in the `throttledFns` map. -/
structure ThrottleInfo where
  lastCall : Int
  delay : Int
deriving Repr, DecidableEq

/-- One invocation of the throttled wrapper from the `useThrottle` mock:
given the stored record (or `none` on the very first call), the hook's
`delay` argument and the current time, returns whether the wrapped
callback is forwarded and the record stored afterwards.  Mirrors the
source: first call registers `\x7b lastCall: now, delay \x7d` and forwards;
`now - lastCall < delay` drops without touching the map; otherwise the
record's `lastCall` is set to `now` and the call is forwarded. -/
def throttleStep (info : Option ThrottleInfo) (delay : Int) (now : Int) :
    Bool × ThrottleInfo :=
  match info with
  | none => (true, { lastCall := now, delay := delay })
  | some t =>
    if now - t.lastCall < t.delay then (false, t)
    else (true, { t with lastCall := now })

/-- Repeated invocations of the throttled wrapper at the given timestamps,
starting from record state `info`; returns the per-invocation
forwarded/dropped outcomes and the final record. -/
def runThrottleFrom (delay : Int) (info : Option ThrottleInfo) :
    List Int → List Bool × Option ThrottleInfo
  | [] => ([], info)
  | t :: ts =>
    let s := throttleStep info delay t
    let r := runThrottleFrom delay (some s.2) ts
    (s.1 :: r.1, r.2)

/-- A fresh throttled wrapper (empty map) invoked at the given timestamps. -/
def runThrottle (delay : Int) (times : List Int) :
    List Bool × Option ThrottleInfo :=
  runThrottleFrom delay none times

/-- C4: the first invocation is always forwarded and recorded; an
invocation strictly inside the window is dropped; an invocation at
elapsed time ≥ the window — including exactly equal — is forwarded and
its timestamp becomes the new last-accepted timestamp. -/
theorem useThrottle_window (W now : Int) (t : ThrottleInfo) :
    (throttleStep none W now) = (true, { lastCall := now, delay := W })
    ∧ (now - t.lastCall < t.delay →
        throttleStep (some t) W now = (false, t))
    ∧ (t.delay ≤ now - t.lastCall →
        throttleStep (some t) W now = (true, { t with lastCall := now }))
    ∧ (now - t.lastCall = t.delay →
        (throttleStep (some t) W now).1 = true) := by
  refine ⟨rfl, fun h => ?_, fun h => ?_, fun h => ?_⟩
  · simp [throttleStep, h]
  · simp [throttleStep, not_lt.mpr h]
  · simp [throttleStep, h]

/-- C4 witness: two events 201 ms apart with a 200 ms window are both
accepted (the spec's concrete boundary test). -/
theorem useThrottle_window_witness :
    throttleStep (some { lastCall := 0, delay := 200 }) 200 201
      = (true, { lastCall := 201, delay := 200 }) :=
  (useThrottle_window 200 201 { lastCall := 0, delay := 200 }).2.2.1
    (by decide)

/-- C5: a dropped invocation leaves the throttle record unchanged, and is
invisible to every later invocation: processing a dropped time `now1`
followed by `now2` gives the same outcome and final record for `now2` as
processing `now2` alone, so eligibility is always measured from the last
forwarded call and a dropped call triggers no later execution. -/
theorem useThrottle_drop_pure (W now1 now2 : Int) (t : ThrottleInfo)
    (h : (throttleStep (some t) W now1).1 = false) :
    (throttleStep (some t) W now1).2 = t
    ∧ runThrottleFrom W (some t) [now1, now2]
        = (false :: (runThrottleFrom W (some t) [now2]).1,
           (runThrottleFrom W (some t) [now2]).2) := by
  have hin : now1 - t.lastCall < t.delay := by
    by_contra hc
    simp [throttleStep, hc] at h
  constructor
  · simp [throttleStep, hin]
  · simp [runThrottleFrom, throttleStep, hin]

/-- C5 witness: the spec scenario — inbound events at t = 0, 150, 201 with
a 200 ms window: the event at 150 is dropped with no effect, and the event
at 201 is accepted exactly as if 150 had never happened. -/
theorem useThrottle_drop_pure_witness :
    (throttleStep (some { lastCall := 0, delay := 200 }) 200 150).1 = false
    ∧ (throttleStep (some { lastCall := 0, delay := 200 }) 200 150).2
        = { lastCall := 0, delay := 200 }
    ∧ runThrottleFrom 200 (some { lastCall := 0, delay := 200 }) [150, 201]
        = (false ::
            (runThrottleFrom 200 (some { lastCall := 0, delay := 200 })
              [201]).1,
           (runThrottleFrom 200 (some { lastCall := 0, delay := 200 })
              [201]).2) := by
  refine ⟨by decide, ?_⟩
  exact useThrottle_drop_pure 200 150 201 { lastCall := 0, delay := 200 }
    (by decide)

/-- C8: when closed the picker renders nothing; when open, the backdrop's
click handler is `onClose` and never the selection callback, and each
glyph button's click handler is exactly one `onEmojiSelect` call with that
button's own glyph, never `onClose`. -/
theorem emojiPicker_click_contract (position : Position) :
    renderEmojiPicker false position = none
    ∧ ∃ r, renderEmojiPicker true position = some r
        ∧ r.backdropOnClick = PickerAction.close
        ∧ (∀ g, r.backdropOnClick ≠ PickerAction.select g)
        ∧ ∀ b ∈ r.panel.buttons,
            b.onClick = PickerAction.select b.text
            ∧ b.onClick ≠ PickerAction.close := by
  refine ⟨rfl, _, rfl, rfl, by simp, ?_⟩
  intro b hb
  simp only [renderEmojiPicker, Bool.not_true, List.mem_map] at hb
  obtain ⟨e, _, rfl⟩ := hb
  exact ⟨rfl, by simp⟩

/-- C9: the palette is a single fixed ordered list of 43 glyphs whose
first entry is 👍; the open picker is announced as a dialog and renders
one independently reachable button per palette glyph, in palette order,
labelled by its own glyph; every selection a button can report is a
member of the palette. -/
theorem emojiPicker_palette_contract (position : Position) :
    emojis.length = 43
    ∧ emojis.head? = some "👍"
    ∧ ∃ r, renderEmojiPicker true position = some r
        ∧ r.panel.role = "dialog"
        ∧ r.panel.buttons.map EmojiButton.text = emojis
        ∧ (∀ b ∈ r.panel.buttons,
            b.ariaLabel = "Emoji " ++ b.text ∧ b.title = b.text)
        ∧ ∀ b ∈ r.panel.buttons, ∀ g,
            b.onClick = PickerAction.select g → g ∈ emojis := by
  refine ⟨rfl, rfl, _, rfl, rfl, by rfl, ?_, ?_⟩
  · intro b hb
    simp only [renderEmojiPicker, Bool.not_true, List.mem_map] at hb
    obtain ⟨e, _, rfl⟩ := hb
    exact ⟨rfl, rfl⟩
  · intro b hb g hg
    simp only [renderEmojiPicker, Bool.not_true, List.mem_map] at hb
    obtain ⟨e, he, rfl⟩ := hb
    simp only [PickerAction.select.injEq] at hg
    exact hg ▸ he

/-- C10: the 43 entries of the fixed palette are pairwise distinct
strings, so each rendered glyph button is uniquely identified by its
glyph. -/
theorem emojis_nodup : emojis.Nodup := by decide

/-- Modelled from the spec: the states of the `RoomReaction` gesture
controller (`room-reaction.tsx` is not under `src/`; only its test suite
is).  Spec section 4.4: `Idle`, `Pressing` (long-press timer running,
surface closed), `SurfaceOpen` (timer fired, surface visible). -/
inductive GestureState where
  | idle
  | pressing
  | surfaceOpen
deriving Repr, DecidableEq

/-- Modelled from the spec: the discrete input events of the gesture
controller — press-start (mouse-down/touch-start), press-end
(mouse-up/touch-end), the long-press timer firing, the surface's
`onSelect(glyph)` and `onClose` callbacks, and the burst's `onComplete`. -/
inductive GestureEvent where
  | pressStart
  | pressEnd
  | timerFire
  | surfaceSelect (g : String)
  | surfaceClose
  | burstComplete
deriving Repr, DecidableEq

/-- Modelled from the spec: the active-burst descriptor (glyph shown). -/
structure Burst where
  emoji : String
deriving Repr, DecidableEq

/-- Modelled from the spec: the state owned by one gesture controller
instance — the machine state, the mutable default emoji, and the at most
one active burst. -/
structure Controller where
  gstate : GestureState
  defaultEmoji : String
  burst : Option Burst
deriving Repr, DecidableEq

/-- Modelled from the spec: the controller's initial state — idle, default
emoji 👍, no active burst. -/
def initController : Controller :=
  { gstate := GestureState.idle, defaultEmoji := "👍", burst := none }

/-- Modelled from the spec: one transition of the gesture controller
(spec section 4.4), returning the new controller state and the list of
send calls made by the transition.  Idle→Pressing on press-start;
Pressing→Idle on press-end (tap: send the default emoji, burst it);
Pressing→SurfaceOpen on timer fire; SurfaceOpen→Idle on `onSelect(g)`
(default becomes g, g is sent and burst) or on `onClose` (nothing sent,
default unchanged); the burst's `onComplete` clears the active burst;
every other (state, event) pair is a no-op. -/
def gestureStep (c : Controller) (e : GestureEvent) :
    Controller × List String :=
  match c.gstate, e with
  | GestureState.idle, GestureEvent.pressStart =>
      ({ c with gstate := GestureState.pressing }, [])
  | GestureState.pressing, GestureEvent.pressEnd =>
      ({ c with gstate := GestureState.idle,
                burst := some { emoji := c.defaultEmoji } },
       [c.defaultEmoji])
  | GestureState.pressing, GestureEvent.timerFire =>
      ({ c with gstate := GestureState.surfaceOpen }, [])
  | GestureState.surfaceOpen, GestureEvent.surfaceSelect g =>
      ({ c with gstate := GestureState.idle, defaultEmoji := g,
                burst := some { emoji := g } },
       [g])
  | GestureState.surfaceOpen, GestureEvent.surfaceClose =>
      ({ c with gstate := GestureState.idle }, [])
  | _, GestureEvent.burstComplete =>
      ({ c with burst := none }, [])
  | _, _ => (c, [])

/-- Runs the gesture controller over a list of events, collecting every
send call made along the way. -/
def runGesture (c : Controller) : List GestureEvent → Controller × List String
  | [] => (c, [])
  | e :: es =>
    let s := gestureStep c e
    let r := runGesture s.1 es
    (r.1, s.2 ++ r.2)

/-- The controller states visited while running a list of events,
starting state included. -/
def statesVisited (c : Controller) : List GestureEvent → List Controller
  | [] => [c]
  | e :: es => c :: statesVisited (gestureStep c e).1 es

/-- Modelled from the spec: the long-press threshold, 500 ms. -/
def longPressThreshold : Nat := 500

/-- Modelled from the spec: the events one gesture session delivers to
the controller when the press is held for `holdMs` milliseconds — the
single-shot timer fires at the threshold only if the press is still
down; releasing earlier delivers press-end first and the cancelled timer
never fires. -/
def sessionEvents (holdMs : Nat) : List GestureEvent :=
  if holdMs < longPressThreshold then
    [GestureEvent.pressStart, GestureEvent.pressEnd]
  else
    [GestureEvent.pressStart, GestureEvent.timerFire]

/-- C1: with the surface open, `onSelect(g)` closes the surface, makes
exactly one send call with g, sets the default emoji to g and bursts g,
and a subsequent tap sends g; `onClose` closes the surface with zero
sends and the default emoji unchanged; after either terminal event the
controller is idle, so a repeated surface callback is a no-op. -/
theorem surfaceOpen_terminal_events (c : Controller) (g : String)
    (h : c.gstate = GestureState.surfaceOpen) :
    gestureStep c (GestureEvent.surfaceSelect g)
      = ({ c with gstate := GestureState.idle, defaultEmoji := g,
                  burst := some { emoji := g } }, [g])
    ∧ gestureStep c GestureEvent.surfaceClose
        = ({ c with gstate := GestureState.idle }, [])
    ∧ (runGesture (gestureStep c (GestureEvent.surfaceSelect g)).1
        [GestureEvent.pressStart, GestureEvent.pressEnd]).2 = [g]
    ∧ gestureStep (gestureStep c (GestureEvent.surfaceSelect g)).1
        (GestureEvent.surfaceSelect g)
        = ((gestureStep c (GestureEvent.surfaceSelect g)).1, []) := by
  obtain ⟨gs, d, b⟩ := c
  simp only at h
  subst h
  exact ⟨rfl, rfl, rfl, rfl⟩

/-- C1 witness: selecting ❤️ from the open surface at the initial default. -/
theorem surfaceOpen_terminal_events_witness :
    gestureStep { gstate := GestureState.surfaceOpen, defaultEmoji := "👍",
                  burst := none } (GestureEvent.surfaceSelect "❤️")
      = ({ gstate := GestureState.idle, defaultEmoji := "❤️",
           burst := some { emoji := "❤️" } }, ["❤️"]) :=
  (surfaceOpen_terminal_events
    { gstate := GestureState.surfaceOpen, defaultEmoji := "👍",
      burst := none } "❤️" rfl).1

/-- C2: a press released before the long-press threshold never opens the
surface — even if the cancelled timer event were delivered afterwards —
and makes exactly one send call carrying the current default emoji; the
initial default emoji is 👍. -/
theorem tap_sends_default (c : Controller) (holdMs : Nat)
    (hIdle : c.gstate = GestureState.idle)
    (h : holdMs < longPressThreshold) :
    initController.defaultEmoji = "👍"
    ∧ (runGesture c (sessionEvents holdMs)).2 = [c.defaultEmoji]
    ∧ (∀ s ∈ statesVisited c (sessionEvents holdMs),
        s.gstate ≠ GestureState.surfaceOpen)
    ∧ (runGesture c (sessionEvents holdMs ++ [GestureEvent.timerFire])).2
        = [c.defaultEmoji]
    ∧ ∀ s ∈ statesVisited c (sessionEvents holdMs ++ [GestureEvent.timerFire]),
        s.gstate ≠ GestureState.surfaceOpen := by
  obtain ⟨gs, d, b⟩ := c
  simp only at hIdle
  subst hIdle
  simp [sessionEvents, h, runGesture, gestureStep, statesVisited,
    initController]

/-- C2 witness: a 100 ms press from the initial controller sends 👍 once. -/
theorem tap_sends_default_witness :
    (runGesture initController (sessionEvents 100)).2 = ["👍"] :=
  (tap_sends_default initController 100 rfl (by decide)).2.1

/-- C3: a press held to the long-press threshold opens the surface with
zero sends, and from the open surface no event can produce a send except
a glyph selection. -/
theorem longPress_opens_surface (c : Controller) (holdMs : Nat)
    (hIdle : c.gstate = GestureState.idle)
    (h : longPressThreshold ≤ holdMs) :
    (runGesture c (sessionEvents holdMs)).1.gstate = GestureState.surfaceOpen
    ∧ (runGesture c (sessionEvents holdMs)).2 = []
    ∧ ∀ c2 : Controller, c2.gstate = GestureState.surfaceOpen →
        ∀ e, (gestureStep c2 e).2 ≠ [] →
          ∃ g, e = GestureEvent.surfaceSelect g := by
  obtain ⟨gs, d, b⟩ := c
  simp only at hIdle
  subst hIdle
  refine ⟨?_, ?_, ?_⟩
  · simp [sessionEvents, Nat.not_lt.mpr h, runGesture, gestureStep]
  · simp [sessionEvents, Nat.not_lt.mpr h, runGesture, gestureStep]
  · intro c2 h2 e he
    obtain ⟨gs2, d2, b2⟩ := c2
    simp only at h2
    subst h2
    cases e <;> simp [gestureStep] at he ⊢

/-- C3 witness: a 500 ms hold from the initial controller opens the
surface and sends nothing. -/
theorem longPress_opens_surface_witness :
    (runGesture initController (sessionEvents 500)).1.gstate
      = GestureState.surfaceOpen
    ∧ (runGesture initController (sessionEvents 500)).2 = [] :=
  ⟨(longPress_opens_surface initController 500 rfl (by decide)).1,
   (longPress_opens_surface initController 500 rfl (by decide)).2.1⟩

/-- Modelled from the spec: the two channels a send failure can be
reported on — the caller-supplied `onSendRoomReactionError(error, glyph)`
handler, or one diagnostic `console.error` line. -/
inductive ErrorReport where
  | handlerCall (err : String) (glyph : String)
  | logLine (err : String) (glyph : String)
deriving Repr, DecidableEq

/-- Modelled from the spec: the outcome of the asynchronous
`sendRoomReaction` capability. -/
inductive SendResult where
  | ok
  | fail (err : String)
deriving Repr, DecidableEq

/-- Modelled from the spec: settling a send's result at the boundary
where the send was initiated (`room-reaction.tsx` is not under `src/`).
The failure is caught there and routed to the caller's handler if
configured, else to one diagnostic log line; the controller's state —
including the optimistic burst already shown — is untouched, and the
function is total, so no exception escapes the boundary. -/
def settleSend (hasHandler : Bool) (glyph : String) (res : SendResult)
    (c : Controller) : Controller × List ErrorReport :=
  match res with
  | SendResult.ok => (c, [])
  | SendResult.fail err =>
      (c, if hasHandler then [ErrorReport.handlerCall err glyph]
          else [ErrorReport.logLine err glyph])

/-- C6: a failed send produces exactly one report — the handler invoked
once with (error, glyph) when configured, else one diagnostic log line —
and never changes the controller state, so the optimistic burst is not
reverted; a successful send reports nothing. -/
theorem send_failure_reporting (hasHandler : Bool) (glyph err : String)
    (c : Controller) :
    (settleSend hasHandler glyph (SendResult.fail err) c).1 = c
    ∧ ((settleSend hasHandler glyph (SendResult.fail err) c).1).burst
        = c.burst
    ∧ (settleSend hasHandler glyph (SendResult.fail err) c).2
        = (if hasHandler then [ErrorReport.handlerCall err glyph]
           else [ErrorReport.logLine err glyph])
    ∧ ((settleSend hasHandler glyph (SendResult.fail err) c).2).length = 1
    ∧ (settleSend hasHandler glyph SendResult.ok c).2 = [] := by
  refine ⟨rfl, rfl, rfl, ?_, rfl⟩
  cases hasHandler <;> rfl

/-- The nodes the gesture controller renders: the selection surface when
(and only when) the machine is in `SurfaceOpen`, and the burst element
when (and only when) a burst descriptor is active — mirroring the
conditional rendering asserted by the RoomReaction test suite. -/
inductive RNode where
  | surfaceNode
  | burstNode (emoji : String)
deriving Repr, DecidableEq

/-- Whether a rendered node is the selection surface. -/
def isSurfaceNode : RNode → Bool
  | RNode.surfaceNode => true
  | RNode.burstNode _ => false

/-- Whether a rendered node is a burst element. -/
def isBurstNode : RNode → Bool
  | RNode.surfaceNode => false
  | RNode.burstNode _ => true

/-- Rendering of the gesture controller's owned overlays. -/
def renderController (c : Controller) : List RNode :=
  (if c.gstate = GestureState.surfaceOpen then [RNode.surfaceNode] else [])
    ++ (match c.burst with
        | some b => [RNode.burstNode b.emoji]
        | none => [])

/-- C7: every controller state renders at most one selection surface and
at most one burst; a burst's `onComplete` deactivates the active burst
exactly once — afterwards no burst element is rendered, and a second
completion event is a no-op, so no duplicate completion handling can
occur. -/
theorem single_surface_single_burst (c : Controller) (b : Burst)
    (h : c.burst = some b) :
    ((renderController c).countP isSurfaceNode) ≤ 1
    ∧ ((renderController c).countP isBurstNode) ≤ 1
    ∧ (gestureStep c GestureEvent.burstComplete).1.burst = none
    ∧ (gestureStep c GestureEvent.burstComplete).2 = []
    ∧ ((renderController (gestureStep c GestureEvent.burstComplete).1).countP
        isBurstNode) = 0
    ∧ gestureStep (gestureStep c GestureEvent.burstComplete).1
        GestureEvent.burstComplete
        = ((gestureStep c GestureEvent.burstComplete).1, []) := by
  obtain ⟨gs, d, ob⟩ := c
  subst h
  cases gs <;>
    simp [renderController, gestureStep, isSurfaceNode, isBurstNode,
      List.countP, List.countP.go]

/-- C7 witness: the controller right after a tap burst of 👍. -/
theorem single_surface_single_burst_witness :
    (gestureStep { gstate := GestureState.idle, defaultEmoji := "👍",
                   burst := some { emoji := "👍" } }
      GestureEvent.burstComplete).1.burst = none :=
  (single_surface_single_burst
    { gstate := GestureState.idle, defaultEmoji := "👍",
      burst := some { emoji := "👍" } } { emoji := "👍" } rfl).2.2.1
